import Mathlib

/-!
Shallow embedding of the process-supervisor wrapper script `src/main.py`.

The script registers handlers for SIGINT and SIGTERM, prints a startup
banner, changes into the directory of the script, spawns the fixed command
`npm run dev` with stderr merged into a piped, line-buffered text stdout,
relays each output line verbatim, waits for the child, and returns the
child exit code.  Exceptions are classified by a chain of except clauses:
FileNotFoundError, KeyboardInterrupt, and a generic Exception catch-all.

The embedding makes one run a function of an `Env` value that records the
nondeterministic inputs of the run: the script directory, the lines the
child produces, the child exit code, and at most one interruption (a
delivered signal running the registered handler, or an exception raised by
the runtime) together with the point in the try block where it strikes.
A run yields a trace of observable events (handler registrations, printed
text, chdir, spawn, wait) and a result.
-/

namespace DevServer

/-- The two signals the script installs a handler for. -/
inductive Sig
  | sigint
  | sigterm
deriving DecidableEq

/-- Python exception values relevant to this script.  The boolean
classification below mirrors the CPython class hierarchy: FileNotFoundError
and ordinary runtime errors derive from Exception, while KeyboardInterrupt
and SystemExit derive only from BaseException. -/
inductive PyExc
  | fileNotFoundError (msg : String)
  | keyboardInterrupt
  | systemExit (code : Int)
  | otherException (msg : String)
deriving DecidableEq

/-- Whether the exception is an instance of class Exception (so the generic
except-Exception clause catches it).  KeyboardInterrupt and SystemExit are
BaseException only. -/
def PyExc.isException : PyExc → Bool
  | .fileNotFoundError _ => true
  | .otherException _ => true
  | .keyboardInterrupt => false
  | .systemExit _ => false

/-- The text Python str gives for the exception, used by the f-string of
the catch-all diagnostic. -/
def PyExc.str : PyExc → String
  | .fileNotFoundError m => m
  | .keyboardInterrupt => ""
  | .systemExit c => toString c
  | .otherException m => m

/-- Destination selector for the child stdout in the Popen call. -/
inductive StdoutDest
  | pipe
deriving DecidableEq

/-- Destination selector for the child stderr in the Popen call. -/
inductive StderrDest
  | toStdout
deriving DecidableEq

/-- The keyword configuration of the Popen call in the script. -/
structure PopenConfig where
  stdout : StdoutDest
  stderr : StderrDest
  universalNewlines : Bool
  bufsize : Int
deriving DecidableEq

/-- The fixed argument vector the script spawns. -/
def npmCmd : List String := ["npm", "run", "dev"]

/-- The configuration of the one Popen call: stdout piped, stderr merged
into stdout, text mode, line buffered. -/
def popenConfig : PopenConfig := ⟨StdoutDest.pipe, StderrDest.toStdout, true, 1⟩

/-- Observable events of a run. `printLine s` is a print call that appends
a newline; `printRaw s` is a print call with an empty line terminator, as
used for relayed child lines. -/
inductive Event
  | setHandler (s : Sig)
  | printLine (s : String)
  | printRaw (s : String)
  | chdir (dir : String)
  | spawn (cmd : List String) (cfg : PopenConfig)
  | wait
deriving DecidableEq

/-- The banner printed right after handler registration. -/
def startBanner : String := "Starting Terminal Portfolio Development Server..."

/-- The shutdown notice, printed both by the signal handler and by the
except-KeyboardInterrupt clause. -/
def shutdownMsg : String := "\nShutting down development server..."

/-- The diagnostic of the except-FileNotFoundError clause. -/
def npmMissingMsg : String := "Error: npm not found. Make sure Node.js is installed."

/-- The fixed head of the catch-all diagnostic f-string. -/
def unknownHead : String := "Error starting development server: "

/-- A handler slot of the process signal table. `pyHandler` is the function
signal_handler of the script; `defaultH` models the inherited disposition
in place before the script installs its own. -/
inductive Handler
  | defaultH
  | pyHandler
deriving DecidableEq

/-- Running a handler when the signal is delivered: signal_handler prints
the shutdown notice and calls sys.exit 0, which raises SystemExit 0; the
default SIGINT disposition surfaces as KeyboardInterrupt. -/
def Handler.invoke : Handler → List Event × PyExc
  | .pyHandler => ([Event.printLine shutdownMsg], PyExc.systemExit 0)
  | .defaultH => ([], PyExc.keyboardInterrupt)

/-- An interruption striking the try block: either a delivered signal runs
the currently registered handler, or an exception is raised directly at
that point (a spawn failure, an I/O failure, a KeyboardInterrupt). -/
inductive Interrupt
  | handlerFire (s : Sig)
  | raiseExc (e : PyExc)
deriving DecidableEq

/-- Effect of the interruption given the current signal table: the events
it prints and the exception it raises into the try block. -/
def Interrupt.perform (tbl : Sig → Handler) : Interrupt → List Event × PyExc
  | .handlerFire s => (tbl s).invoke
  | .raiseExc e => ([], e)

/-- The point inside the try block where the interruption strikes:
at the chdir call, at the Popen call, during the relay loop after k lines
have been consumed and printed, or during the final wait. -/
inductive IPoint
  | atChdir
  | atSpawn
  | atStream (k : Nat)
  | atWait
deriving DecidableEq

/-- The nondeterministic inputs of one run. `intr = none` is the
undisturbed run: chdir and spawn succeed, the stream is consumed to its
end, and the child exits with `childCode`. -/
structure Env where
  scriptDir : String
  childLines : List String
  childCode : Int
  intr : Option (IPoint × Interrupt)
deriving DecidableEq

/-- Pointwise update of the signal table, as signal.signal does. -/
def setSig (tbl : Sig → Handler) (s : Sig) (h : Handler) : Sig → Handler :=
  fun x => if x = s then h else tbl x

/-- The table after main has installed signal_handler for SIGINT and
SIGTERM. -/
def installedTable : Sig → Handler :=
  setSig (setSig (fun _ => Handler.defaultH) Sig.sigint Handler.pyHandler)
    Sig.sigterm Handler.pyHandler

/-- The events of the relay loop: each child line is printed with an empty
line terminator, hence verbatim. -/
def streamEvents (lines : List String) : List Event := lines.map Event.printRaw

/-- The try block of main: chdir, spawn, relay loop, wait, returning the
child returncode; or the prefix of that cut short by the interruption,
ending in a raised exception. -/
def tryBody (tbl : Sig → Handler) (env : Env) : List Event × Except PyExc Int :=
  match env.intr with
  | none =>
      (Event.chdir env.scriptDir :: Event.spawn npmCmd popenConfig ::
        (streamEvents env.childLines ++ [Event.wait]), Except.ok env.childCode)
  | some (IPoint.atChdir, i) =>
      ((i.perform tbl).1, Except.error (i.perform tbl).2)
  | some (IPoint.atSpawn, i) =>
      (Event.chdir env.scriptDir :: (i.perform tbl).1, Except.error (i.perform tbl).2)
  | some (IPoint.atStream k, i) =>
      (Event.chdir env.scriptDir :: Event.spawn npmCmd popenConfig ::
        (streamEvents (env.childLines.take k) ++ (i.perform tbl).1),
       Except.error (i.perform tbl).2)
  | some (IPoint.atWait, i) =>
      (Event.chdir env.scriptDir :: Event.spawn npmCmd popenConfig ::
        (streamEvents env.childLines ++ (i.perform tbl).1),
       Except.error (i.perform tbl).2)

/-- Result of the function main: a returned integer, or an exception that
propagates out of main uncaught. -/
inductive MainResult
  | ret (code : Int)
  | raised (e : PyExc)
deriving DecidableEq

/-- The except-clause chain of main, applied to an exception escaping the
try block, in source order: FileNotFoundError, then KeyboardInterrupt,
then the generic Exception catch-all; anything that is not an instance of
Exception propagates. -/
def handleExc (e : PyExc) : List Event × MainResult :=
  match e with
  | PyExc.fileNotFoundError _ => ([Event.printLine npmMissingMsg], MainResult.ret 1)
  | PyExc.keyboardInterrupt => ([Event.printLine shutdownMsg], MainResult.ret 0)
  | e =>
      if e.isException then
        ([Event.printLine (unknownHead ++ e.str)], MainResult.ret 1)
      else
        ([], MainResult.raised e)

/-- The events main performs before the try block: the two signal.signal
calls, then the banner print. -/
def startupEvents : List Event :=
  [Event.setHandler Sig.sigint, Event.setHandler Sig.sigterm,
   Event.printLine startBanner]

/-- The function main of the script: register the two handlers, print the
banner, run the try block, dispatch any escaping exception through the
except chain. -/
def mainRun (env : Env) : List Event × MainResult :=
  match tryBody installedTable env with
  | (es, Except.ok code) => (startupEvents ++ es, MainResult.ret code)
  | (es, Except.error e) =>
      (startupEvents ++ es ++ (handleExc e).1, (handleExc e).2)

/-- Outcome at the process level. -/
inductive ProcResult
  | exited (code : Int)
  | fatal (e : PyExc)
deriving DecidableEq

/-- The top level of the script, sys.exit applied to main: a returned code
becomes the process exit status, an uncaught SystemExit c terminates the
process with status c, any other uncaught exception is fatal. -/
def scriptRun (env : Env) : List Event × ProcResult :=
  match mainRun env with
  | (es, MainResult.ret c) => (es, ProcResult.exited c)
  | (es, MainResult.raised (PyExc.systemExit c)) => (es, ProcResult.exited c)
  | (es, MainResult.raised e) => (es, ProcResult.fatal e)

/-- The text a print event writes to standard output, if any. -/
def Event.outText : Event → Option String
  | Event.printLine s => some (s ++ "\n")
  | Event.printRaw s => some s
  | _ => none

/-- Everything a trace writes to standard output, in order. -/
def outputOf (es : List Event) : List String := es.filterMap Event.outText

/-- Only the relayed child lines of a trace, in order. -/
def relayedLines (es : List Event) : List String :=
  es.filterMap fun e =>
    match e with
    | Event.printRaw s => some s
    | _ => none

/-- Whether the event is a signal.signal registration. -/
def Event.isSetHandler : Event → Bool
  | Event.setHandler _ => true
  | _ => false

/-- Whether the event is the chdir call. -/
def Event.isChdir : Event → Bool
  | Event.chdir _ => true
  | _ => false

/-- Whether the event is a Popen call. -/
def Event.isSpawnEvent : Event → Bool
  | Event.spawn _ _ => true
  | _ => false

/-- Whether the event is a newline-terminated print, i.e. a diagnostic or
banner line of the supervisor itself rather than a relayed child line. -/
def Event.isPrintLine : Event → Bool
  | Event.printLine _ => true
  | _ => false

/-- The Popen events of a trace. -/
def spawnsOf (es : List Event) : List Event := es.filter Event.isSpawnEvent

/-! ## General lemmas about the embedding -/

lemma perform_events_printLine (tbl : Sig → Handler) (i : Interrupt) :
    ∀ e ∈ (Interrupt.perform tbl i).1, ∃ s, e = Event.printLine s := by
  intro e he
  cases i with
  | handlerFire s =>
      cases htbl : tbl s <;> simp [Interrupt.perform, htbl, Handler.invoke] at he
      exact ⟨shutdownMsg, he⟩
  | raiseExc ex => simp [Interrupt.perform] at he

lemma handleExc_events_printLine (ex : PyExc) :
    ∀ e ∈ (handleExc ex).1, ∃ s, e = Event.printLine s := by
  intro e he
  cases ex with
  | fileNotFoundError m =>
      simp [handleExc] at he
      exact ⟨npmMissingMsg, he⟩
  | keyboardInterrupt =>
      simp [handleExc] at he
      exact ⟨shutdownMsg, he⟩
  | systemExit c =>
      simp [handleExc, PyExc.isException] at he
  | otherException m =>
      simp [handleExc, PyExc.isException] at he
      exact ⟨_, he⟩

lemma streamEvents_flags {e : Event} {L : List String} (h : e ∈ streamEvents L) :
    e.isSetHandler = false ∧ e.isSpawnEvent = false ∧ e.isPrintLine = false := by
  simp [streamEvents] at h
  obtain ⟨s, _, rfl⟩ := h
  exact ⟨rfl, rfl, rfl⟩

lemma after_events_flags (tbl : Sig → Handler) (i : Interrupt) {e : Event}
    (he : e ∈ (Interrupt.perform tbl i).1 ++ (handleExc (Interrupt.perform tbl i).2).1) :
    e.isSetHandler = false ∧ e.isSpawnEvent = false := by
  rcases List.mem_append.mp he with h1 | h2
  · obtain ⟨s, rfl⟩ := perform_events_printLine tbl i e h1
    exact ⟨rfl, rfl⟩
  · obtain ⟨s, rfl⟩ := handleExc_events_printLine _ e h2
    exact ⟨rfl, rfl⟩

lemma spawnsOf_streamEvents (L : List String) : spawnsOf (streamEvents L) = [] := by
  simp [spawnsOf, streamEvents, List.filter_map, Event.isSpawnEvent, Function.comp]

lemma spawnsOf_perform (tbl : Sig → Handler) (i : Interrupt) :
    spawnsOf (Interrupt.perform tbl i).1 = [] := by
  cases i with
  | handlerFire s =>
      cases htbl : tbl s <;>
        simp [Interrupt.perform, htbl, Handler.invoke, spawnsOf, Event.isSpawnEvent]
  | raiseExc e => rfl

lemma spawnsOf_handleExc (e : PyExc) : spawnsOf (handleExc e).1 = [] := by
  cases e <;> simp [handleExc, spawnsOf, PyExc.isException, Event.isSpawnEvent]

lemma spawnsOf_nil : spawnsOf [] = [] := rfl

lemma spawnsOf_startup : spawnsOf startupEvents = [] := rfl

lemma spawnsOf_cons_chdir (d : String) (es : List Event) :
    spawnsOf (Event.chdir d :: es) = spawnsOf es := rfl

lemma spawnsOf_cons_spawn (c : List String) (cfg : PopenConfig) (es : List Event) :
    spawnsOf (Event.spawn c cfg :: es) = Event.spawn c cfg :: spawnsOf es := rfl

lemma spawnsOf_cons_wait (es : List Event) :
    spawnsOf (Event.wait :: es) = spawnsOf es := rfl

lemma spawnsOf_append (a b : List Event) :
    spawnsOf (a ++ b) = spawnsOf a ++ spawnsOf b := by
  simp [spawnsOf, List.filter_append]

lemma relayedLines_nil : relayedLines [] = [] := rfl

lemma relayedLines_cons_setHandler (s : Sig) (es : List Event) :
    relayedLines (Event.setHandler s :: es) = relayedLines es := rfl

lemma relayedLines_cons_printLine (s : String) (es : List Event) :
    relayedLines (Event.printLine s :: es) = relayedLines es := rfl

lemma relayedLines_cons_printRaw (s : String) (es : List Event) :
    relayedLines (Event.printRaw s :: es) = s :: relayedLines es := rfl

lemma relayedLines_cons_chdir (d : String) (es : List Event) :
    relayedLines (Event.chdir d :: es) = relayedLines es := rfl

lemma relayedLines_cons_spawn (c : List String) (cfg : PopenConfig) (es : List Event) :
    relayedLines (Event.spawn c cfg :: es) = relayedLines es := rfl

lemma relayedLines_cons_wait (es : List Event) :
    relayedLines (Event.wait :: es) = relayedLines es := rfl

lemma relayedLines_append (a b : List Event) :
    relayedLines (a ++ b) = relayedLines a ++ relayedLines b := by
  simp [relayedLines, List.filterMap_append]

lemma relayedLines_streamEvents (L : List String) :
    relayedLines (streamEvents L) = L := by
  induction L with
  | nil => rfl
  | cons s t ih =>
      simp only [streamEvents, List.map_cons, relayedLines, List.filterMap_cons] at ih ⊢
      simpa using ih

lemma outputOf_nil : outputOf [] = [] := rfl

lemma outputOf_cons_setHandler (s : Sig) (es : List Event) :
    outputOf (Event.setHandler s :: es) = outputOf es := rfl

lemma outputOf_cons_printLine (s : String) (es : List Event) :
    outputOf (Event.printLine s :: es) = (s ++ "\n") :: outputOf es := rfl

lemma outputOf_cons_printRaw (s : String) (es : List Event) :
    outputOf (Event.printRaw s :: es) = s :: outputOf es := rfl

lemma outputOf_cons_chdir (d : String) (es : List Event) :
    outputOf (Event.chdir d :: es) = outputOf es := rfl

lemma outputOf_cons_spawn (c : List String) (cfg : PopenConfig) (es : List Event) :
    outputOf (Event.spawn c cfg :: es) = outputOf es := rfl

lemma outputOf_cons_wait (es : List Event) :
    outputOf (Event.wait :: es) = outputOf es := rfl

lemma outputOf_append (a b : List Event) :
    outputOf (a ++ b) = outputOf a ++ outputOf b := by
  simp [outputOf, List.filterMap_append]

lemma outputOf_streamEvents (L : List String) : outputOf (streamEvents L) = L := by
  induction L with
  | nil => rfl
  | cons s t ih =>
      simp only [streamEvents, List.map_cons, outputOf, List.filterMap_cons] at ih ⊢
      simpa [Event.outText] using ih

lemma mainRun_none_trace (env : Env) (h : env.intr = none) :
    (mainRun env).1 =
      startupEvents ++ (Event.chdir env.scriptDir :: Event.spawn npmCmd popenConfig ::
        (streamEvents env.childLines ++ [Event.wait])) := by
  simp [mainRun, tryBody, h]

/-! ## Claim theorems -/

/-- Claim C1: when the child is spawned successfully, its output stream is
fully consumed and it terminates with exit code K with no signal and no
exception intervening, run returns K as the supervisor result, a nonzero
code K being propagated unchanged. -/
theorem child_code_propagated (env : Env) (h : env.intr = none) :
    (mainRun env).2 = MainResult.ret env.childCode ∧
    (scriptRun env).2 = ProcResult.exited env.childCode := by
  simp [mainRun, scriptRun, tryBody, h]

/-- Witness for child_code_propagated at a concrete run with nonzero child
exit code 3. -/
theorem child_code_propagated_witness :
    (mainRun ⟨"/app", ["a\n", "b\n"], 3, none⟩).2 = MainResult.ret 3 ∧
    (scriptRun ⟨"/app", ["a\n", "b\n"], 3, none⟩).2 = ProcResult.exited 3 :=
  child_code_propagated ⟨"/app", ["a\n", "b\n"], 3, none⟩ rfl

/-- Claim C2: when the spawn fails because the executable cannot be
located, run prints exactly one diagnostic line and returns 1, and no
error escapes run; the whole trace is the startup events, the chdir, and
the single diagnostic line. -/
theorem spawn_not_found_returns_one (env : Env) (msg : String)
    (h : env.intr = some (IPoint.atSpawn, Interrupt.raiseExc (PyExc.fileNotFoundError msg))) :
    (mainRun env).2 = MainResult.ret 1 ∧
    (mainRun env).1 =
      startupEvents ++ [Event.chdir env.scriptDir, Event.printLine npmMissingMsg] := by
  simp [mainRun, tryBody, h, Interrupt.perform, handleExc]

/-- Witness for spawn_not_found_returns_one at a concrete run. -/
theorem spawn_not_found_returns_one_witness :
    (mainRun ⟨"/app", [], 0, some (IPoint.atSpawn,
        Interrupt.raiseExc (PyExc.fileNotFoundError "npm"))⟩).2 = MainResult.ret 1 ∧
    (mainRun ⟨"/app", [], 0, some (IPoint.atSpawn,
        Interrupt.raiseExc (PyExc.fileNotFoundError "npm"))⟩).1 =
      startupEvents ++ [Event.chdir "/app", Event.printLine npmMissingMsg] :=
  spawn_not_found_returns_one
    ⟨"/app", [], 0, some (IPoint.atSpawn,
      Interrupt.raiseExc (PyExc.fileNotFoundError "npm"))⟩ "npm" rfl

/-- Claim C10: when the chdir into the script directory fails with a
file-not-found error before any spawn is attempted, the supervisor takes
the executable-not-found path: it prints the npm-missing diagnostic and
returns 1, and no spawn event occurs in the trace. -/
theorem chdir_missing_reports_npm (env : Env) (msg : String)
    (h : env.intr = some (IPoint.atChdir, Interrupt.raiseExc (PyExc.fileNotFoundError msg))) :
    (mainRun env).2 = MainResult.ret 1 ∧
    (mainRun env).1 = startupEvents ++ [Event.printLine npmMissingMsg] ∧
    ∀ e ∈ (mainRun env).1, e.isSpawnEvent = false := by
  refine ⟨?_, ?_, ?_⟩ <;>
    simp [mainRun, tryBody, h, Interrupt.perform, handleExc, startupEvents,
      Event.isSpawnEvent]

/-- Witness for chdir_missing_reports_npm at a concrete run. -/
theorem chdir_missing_reports_npm_witness :
    (mainRun ⟨"/gone", [], 0, some (IPoint.atChdir,
        Interrupt.raiseExc (PyExc.fileNotFoundError "dir"))⟩).2 = MainResult.ret 1 ∧
    (mainRun ⟨"/gone", [], 0, some (IPoint.atChdir,
        Interrupt.raiseExc (PyExc.fileNotFoundError "dir"))⟩).1 =
      startupEvents ++ [Event.printLine npmMissingMsg] ∧
    ∀ e ∈ (mainRun ⟨"/gone", [], 0, some (IPoint.atChdir,
        Interrupt.raiseExc (PyExc.fileNotFoundError "dir"))⟩).1,
      e.isSpawnEvent = false :=
  chdir_missing_reports_npm
    ⟨"/gone", [], 0, some (IPoint.atChdir,
      Interrupt.raiseExc (PyExc.fileNotFoundError "dir"))⟩ "dir" rfl

/-- Claim C3: a cancellation striking at any point of spawn, stream or
wait, whether it runs the registered signal handler (SIGINT or SIGTERM)
or surfaces as a KeyboardInterrupt, makes the supervisor print the
shutdown notice and terminate the process with exit status 0. -/
theorem cancellation_exit_zero (env : Env) (p : IPoint) (i : Interrupt)
    (h : env.intr = some (p, i))
    (hi : i = Interrupt.handlerFire Sig.sigint ∨ i = Interrupt.handlerFire Sig.sigterm ∨
      i = Interrupt.raiseExc PyExc.keyboardInterrupt) :
    (scriptRun env).2 = ProcResult.exited 0 ∧
    Event.printLine shutdownMsg ∈ (scriptRun env).1 := by
  rcases hi with rfl | rfl | rfl <;> cases p <;>
    simp [scriptRun, mainRun, tryBody, h, Interrupt.perform, installedTable, setSig,
      Handler.invoke, handleExc, PyExc.isException, startupEvents]

/-- Witness for cancellation_exit_zero: a SIGINT handler firing during the
wait step of a concrete run. -/
theorem cancellation_exit_zero_witness :
    (scriptRun ⟨"/app", ["x\n"], 0,
        some (IPoint.atWait, Interrupt.handlerFire Sig.sigint)⟩).2 =
      ProcResult.exited 0 ∧
    Event.printLine shutdownMsg ∈
      (scriptRun ⟨"/app", ["x\n"], 0,
        some (IPoint.atWait, Interrupt.handlerFire Sig.sigint)⟩).1 :=
  cancellation_exit_zero
    ⟨"/app", ["x\n"], 0, some (IPoint.atWait, Interrupt.handlerFire Sig.sigint)⟩
    IPoint.atWait (Interrupt.handlerFire Sig.sigint) rfl (Or.inl rfl)

/-- Claim C4: any failure during spawn, stream or wait other than a
file-not-found error and a user interruption makes run print exactly one
diagnostic line, which carries the description of the underlying failure,
and return 1: the trace is the startup events, then events none of which
is a supervisor-printed line, then the single diagnostic line. -/
theorem unknown_failure_one_diagnostic (env : Env) (p : IPoint) (msg : String)
    (h : env.intr = some (p, Interrupt.raiseExc (PyExc.otherException msg))) :
    (mainRun env).2 = MainResult.ret 1 ∧
    ∃ mid, (mainRun env).1 =
        startupEvents ++ mid ++ [Event.printLine (unknownHead ++ msg)] ∧
      ∀ e ∈ mid, e.isPrintLine = false := by
  constructor
  · cases p <;>
      simp [mainRun, tryBody, h, Interrupt.perform, handleExc, PyExc.isException]
  · cases p with
    | atChdir =>
        refine ⟨[], ?_, by simp⟩
        simp [mainRun, tryBody, h, Interrupt.perform, handleExc, PyExc.isException,
          PyExc.str]
    | atSpawn =>
        refine ⟨[Event.chdir env.scriptDir], ?_, ?_⟩
        · simp [mainRun, tryBody, h, Interrupt.perform, handleExc, PyExc.isException,
            PyExc.str]
        · intro e he
          simp at he
          subst he
          rfl
    | atStream k =>
        refine ⟨Event.chdir env.scriptDir :: Event.spawn npmCmd popenConfig ::
          streamEvents (env.childLines.take k), ?_, ?_⟩
        · simp [mainRun, tryBody, h, Interrupt.perform, handleExc, PyExc.isException,
            PyExc.str]
        · intro e he
          rcases List.mem_cons.mp he with rfl | he
          · rfl
          rcases List.mem_cons.mp he with rfl | he
          · rfl
          exact (streamEvents_flags he).2.2
    | atWait =>
        refine ⟨Event.chdir env.scriptDir :: Event.spawn npmCmd popenConfig ::
          streamEvents env.childLines, ?_, ?_⟩
        · simp [mainRun, tryBody, h, Interrupt.perform, handleExc, PyExc.isException,
            PyExc.str]
        · intro e he
          rcases List.mem_cons.mp he with rfl | he
          · rfl
          rcases List.mem_cons.mp he with rfl | he
          · rfl
          exact (streamEvents_flags he).2.2

/-- Witness for unknown_failure_one_diagnostic: an I/O failure on the
output pipe after one relayed line of a concrete run. -/
theorem unknown_failure_one_diagnostic_witness :
    (mainRun ⟨"/app", ["x\n", "y\n"], 0, some (IPoint.atStream 1,
        Interrupt.raiseExc (PyExc.otherException "broken pipe"))⟩).2 =
      MainResult.ret 1 ∧
    ∃ mid, (mainRun ⟨"/app", ["x\n", "y\n"], 0, some (IPoint.atStream 1,
        Interrupt.raiseExc (PyExc.otherException "broken pipe"))⟩).1 =
        startupEvents ++ mid ++ [Event.printLine (unknownHead ++ "broken pipe")] ∧
      ∀ e ∈ mid, e.isPrintLine = false :=
  unknown_failure_one_diagnostic
    ⟨"/app", ["x\n", "y\n"], 0, some (IPoint.atStream 1,
      Interrupt.raiseExc (PyExc.otherException "broken pipe"))⟩
    (IPoint.atStream 1) "broken pipe" rfl

/-- Claim C5: in a run whose stream is consumed to its end, the relayed
lines of the trace are exactly the child lines, in the order the child
produced them and with the same multiplicity, and a relayed line is
written verbatim: the text a printRaw event emits is the line itself with
no added line break. -/
theorem relay_verbatim_in_order (env : Env) (h : env.intr = none) :
    relayedLines (mainRun env).1 = env.childLines ∧
    ∀ s : String, Event.outText (Event.printRaw s) = some s := by
  constructor
  · rw [mainRun_none_trace env h]
    simp only [startupEvents, List.cons_append, List.nil_append, relayedLines_append,
      relayedLines_cons_setHandler, relayedLines_cons_printLine, relayedLines_cons_chdir,
      relayedLines_cons_spawn, relayedLines_cons_wait, relayedLines_streamEvents,
      relayedLines_nil, List.append_nil, List.nil_append]
  · intro s
    rfl

/-- Witness for relay_verbatim_in_order at a concrete run with two child
lines. -/
theorem relay_verbatim_in_order_witness :
    relayedLines (mainRun ⟨"/app", ["one\n", "two\n"], 0, none⟩).1 =
      ["one\n", "two\n"] ∧
    ∀ s : String, Event.outText (Event.printRaw s) = some s :=
  relay_verbatim_in_order ⟨"/app", ["one\n", "two\n"], 0, none⟩ rfl

/-- Claim C9: when the registered signal handler fires inside the try
block, the SystemExit 0 it raises is not intercepted by the generic
except-Exception clause: main ends with the SystemExit propagating, the
process exits with status 0, and the run is never reclassified as an
unknown failure returning 1. -/
theorem systemexit_skips_catchall (env : Env) (p : IPoint) (s : Sig)
    (h : env.intr = some (p, Interrupt.handlerFire s)) :
    (mainRun env).2 = MainResult.raised (PyExc.systemExit 0) ∧
    (scriptRun env).2 = ProcResult.exited 0 ∧
    (mainRun env).2 ≠ MainResult.ret 1 := by
  cases p <;> cases s <;>
    simp [mainRun, scriptRun, tryBody, h, Interrupt.perform, installedTable, setSig,
      Handler.invoke, handleExc, PyExc.isException]

/-- Witness for systemexit_skips_catchall: a SIGTERM handler firing during
the stream step of a concrete run. -/
theorem systemexit_skips_catchall_witness :
    (mainRun ⟨"/app", ["x\n"], 0, some (IPoint.atStream 0,
        Interrupt.handlerFire Sig.sigterm)⟩).2 =
      MainResult.raised (PyExc.systemExit 0) ∧
    (scriptRun ⟨"/app", ["x\n"], 0, some (IPoint.atStream 0,
        Interrupt.handlerFire Sig.sigterm)⟩).2 = ProcResult.exited 0 ∧
    (mainRun ⟨"/app", ["x\n"], 0, some (IPoint.atStream 0,
        Interrupt.handlerFire Sig.sigterm)⟩).2 ≠ MainResult.ret 1 :=
  systemexit_skips_catchall
    ⟨"/app", ["x\n"], 0, some (IPoint.atStream 0, Interrupt.handlerFire Sig.sigterm)⟩
    (IPoint.atStream 0) Sig.sigterm rfl

/-- A concrete undisturbed run with one child line, used for claim C6. -/
def envC6 : Env := ⟨"/app", ["hello\n"], 0, none⟩

/-- Counterexample to claim C6 as stated: for a child that prints the one
line "hello" and exits 0, the visible standard output of the supervisor is
not exactly that one line, because the startup banner line is printed as
well. -/
theorem exactly_child_lines_counterexample :
    outputOf (mainRun envC6).1 = [startBanner ++ "\n", "hello\n"] ∧
    outputOf (mainRun envC6).1 ≠ ["hello\n"] := by
  refine ⟨rfl, ?_⟩
  decide

/-- Claim C6 amended: for a child that prints N lines and exits 0, the
visible standard output of the supervisor is the startup banner line
followed by exactly those N lines in order, and the supervisor exit status
is 0. -/
theorem banner_then_child_lines (env : Env) (h : env.intr = none)
    (h0 : env.childCode = 0) :
    outputOf (mainRun env).1 = (startBanner ++ "\n") :: env.childLines ∧
    (scriptRun env).2 = ProcResult.exited 0 := by
  constructor
  · rw [mainRun_none_trace env h]
    simp only [startupEvents, List.cons_append, List.nil_append, outputOf_append,
      outputOf_cons_setHandler, outputOf_cons_printLine, outputOf_cons_chdir,
      outputOf_cons_spawn, outputOf_cons_wait, outputOf_streamEvents, outputOf_nil,
      List.append_nil, List.nil_append]
  · simp [scriptRun, mainRun, tryBody, h, h0]

/-- Witness for banner_then_child_lines at the concrete run of envC6. -/
theorem banner_then_child_lines_witness :
    outputOf (mainRun envC6).1 = (startBanner ++ "\n") :: ["hello\n"] ∧
    (scriptRun envC6).2 = ProcResult.exited 0 :=
  banner_then_child_lines envC6 rfl rfl

/-- A concrete undisturbed run with no child output, used for claim C7. -/
def envC7 : Env := ⟨"/app", [], 0, none⟩

/-- Counterexample to claim C7 as stated: in a concrete run the trace
begins with the two handler registrations and the chdir only comes at
index 3, so the chdir does not precede the handler registrations. -/
theorem chdir_first_counterexample :
    (mainRun envC7).1 =
      [Event.setHandler Sig.sigint, Event.setHandler Sig.sigterm,
       Event.printLine startBanner, Event.chdir "/app",
       Event.spawn npmCmd popenConfig, Event.wait] ∧
    ¬ ((mainRun envC7).1.findIdx Event.isChdir <
        (mainRun envC7).1.findIdx Event.isSetHandler) := by
  refine ⟨rfl, ?_⟩
  decide

/-- Claim C7 amended: on every invocation run performs its startup steps
in this order: it first registers the handlers for the interrupt and
termination signals, then prints the banner, and only then sets the
current working directory, before spawning the external command; no
handler registration happens later, and whenever the spawn occurs it
immediately follows the chdir. -/
theorem handlers_registered_before_chdir (env : Env) :
    ∃ rest, (mainRun env).1 = startupEvents ++ rest ∧
      (∀ e ∈ rest, e.isSetHandler = false) ∧
      ((∀ e ∈ rest, e.isSpawnEvent = false) ∨
        ∃ rest2, rest = Event.chdir env.scriptDir ::
          Event.spawn npmCmd popenConfig :: rest2) := by
  rcases hi : env.intr with _ | ⟨p, i⟩
  · refine ⟨Event.chdir env.scriptDir :: Event.spawn npmCmd popenConfig ::
      (streamEvents env.childLines ++ [Event.wait]),
      mainRun_none_trace env hi, ?_, Or.inr ⟨_, rfl⟩⟩
    intro e he
    rcases List.mem_cons.mp he with rfl | he
    · rfl
    rcases List.mem_cons.mp he with rfl | he
    · rfl
    rcases List.mem_append.mp he with he | he
    · exact (streamEvents_flags he).1
    · rcases List.mem_singleton.mp he with rfl
      rfl
  · cases p with
    | atChdir =>
        refine ⟨(Interrupt.perform installedTable i).1 ++
          (handleExc (Interrupt.perform installedTable i).2).1, ?_, ?_, Or.inl ?_⟩
        · simp [mainRun, tryBody, hi]
        · intro e he
          exact (after_events_flags installedTable i he).1
        · intro e he
          exact (after_events_flags installedTable i he).2
    | atSpawn =>
        refine ⟨Event.chdir env.scriptDir ::
          ((Interrupt.perform installedTable i).1 ++
            (handleExc (Interrupt.perform installedTable i).2).1), ?_, ?_, Or.inl ?_⟩
        · simp [mainRun, tryBody, hi]
        · intro e he
          rcases List.mem_cons.mp he with rfl | he
          · rfl
          exact (after_events_flags installedTable i he).1
        · intro e he
          rcases List.mem_cons.mp he with rfl | he
          · rfl
          exact (after_events_flags installedTable i he).2
    | atStream k =>
        refine ⟨Event.chdir env.scriptDir :: Event.spawn npmCmd popenConfig ::
          (streamEvents (env.childLines.take k) ++
            ((Interrupt.perform installedTable i).1 ++
              (handleExc (Interrupt.perform installedTable i).2).1)), ?_, ?_,
          Or.inr ⟨_, rfl⟩⟩
        · simp [mainRun, tryBody, hi]
        · intro e he
          rcases List.mem_cons.mp he with rfl | he
          · rfl
          rcases List.mem_cons.mp he with rfl | he
          · rfl
          rcases List.mem_append.mp he with he | he
          · exact (streamEvents_flags he).1
          · exact (after_events_flags installedTable i he).1
    | atWait =>
        refine ⟨Event.chdir env.scriptDir :: Event.spawn npmCmd popenConfig ::
          (streamEvents env.childLines ++
            ((Interrupt.perform installedTable i).1 ++
              (handleExc (Interrupt.perform installedTable i).2).1)), ?_, ?_,
          Or.inr ⟨_, rfl⟩⟩
        · simp [mainRun, tryBody, hi]
        · intro e he
          rcases List.mem_cons.mp he with rfl | he
          · rfl
          rcases List.mem_cons.mp he with rfl | he
          · rfl
          rcases List.mem_append.mp he with he | he
          · exact (streamEvents_flags he).1
          · exact (after_events_flags installedTable i he).1

/-- Claim C8: every run spawns at most the one fixed command, the package
manager run-script invocation of the target dev, with stderr merged into
the piped line-buffered text stdout; an undisturbed run spawns it exactly
once; and the configuration constants are as stated. -/
theorem spawn_fixed_command (env : Env) :
    (spawnsOf (mainRun env).1 = [] ∨
      spawnsOf (mainRun env).1 = [Event.spawn npmCmd popenConfig]) ∧
    (env.intr = none → spawnsOf (mainRun env).1 = [Event.spawn npmCmd popenConfig]) ∧
    npmCmd = ["npm", "run", "dev"] ∧
    popenConfig.stdout = StdoutDest.pipe ∧
    popenConfig.stderr = StderrDest.toStdout ∧
    popenConfig.universalNewlines = true ∧
    popenConfig.bufsize = 1 := by
  have hnone : env.intr = none →
      spawnsOf (mainRun env).1 = [Event.spawn npmCmd popenConfig] := by
    intro h
    rw [mainRun_none_trace env h]
    simp only [spawnsOf_append, spawnsOf_startup, spawnsOf_cons_chdir,
      spawnsOf_cons_spawn, spawnsOf_cons_wait, spawnsOf_streamEvents, spawnsOf_nil,
      List.append_nil, List.nil_append]
  refine ⟨?_, hnone, rfl, rfl, rfl, rfl, rfl⟩
  rcases hi : env.intr with _ | ⟨p, i⟩
  · exact Or.inr (hnone hi)
  · cases p with
    | atChdir =>
        left
        simp [mainRun, tryBody, hi, spawnsOf_append, spawnsOf_startup,
          spawnsOf_perform, spawnsOf_handleExc]
    | atSpawn =>
        left
        simp [mainRun, tryBody, hi, spawnsOf_append, spawnsOf_startup,
          spawnsOf_cons_chdir, spawnsOf_perform, spawnsOf_handleExc]
    | atStream k =>
        right
        simp [mainRun, tryBody, hi, spawnsOf_append, spawnsOf_startup,
          spawnsOf_cons_chdir, spawnsOf_cons_spawn, spawnsOf_streamEvents,
          spawnsOf_perform, spawnsOf_handleExc]
    | atWait =>
        right
        simp [mainRun, tryBody, hi, spawnsOf_append, spawnsOf_startup,
          spawnsOf_cons_chdir, spawnsOf_cons_spawn, spawnsOf_streamEvents,
          spawnsOf_perform, spawnsOf_handleExc]

/-- Witness for spawn_fixed_command: the undisturbed concrete run spawns
the fixed command exactly once. -/
theorem spawn_fixed_command_witness :
    spawnsOf (mainRun ⟨"/app", [], 0, (none : Option (IPoint × Interrupt))⟩).1 =
      [Event.spawn npmCmd popenConfig] :=
  (spawn_fixed_command ⟨"/app", [], 0, none⟩).2.1 rfl

end DevServer
